import Mathlib

/-!
Shallow embedding of `src/bot.py` (telegram-gpt-bot).

Strings are modelled as lists of characters (`Str`). Python string
operations used by the bot (`str.strip`, `str.lower`, the `in` substring
test, truthiness of optional strings, `int(...)` parsing) are modelled
character by character. The two network collaborators — the OpenAI
completion backend and the Telegram send used for admin alerts — are
passed in as explicit parameters (`backend`, `alertOutcome`), and the
handlers return the ordered list of observable effects they perform
(log lines, outbound messages, the completion request, the final reply),
mirroring the sequential `await` order of the Python coroutines.
-/

namespace Bot

/-- Strings modelled as lists of characters. -/
abbrev Str := List Char

/-- Python whitespace characters relevant to `str.strip()` (ASCII set). -/
def isPySpace (c : Char) : Bool :=
  c == ' ' || c == '\t' || c == '\n' || c == '\r' || c == '\x0b' || c == '\x0c'

/-- Python `str.strip()`: drop whitespace from both ends. -/
def pyStrip (s : Str) : Str :=
  ((s.dropWhile isPySpace).reverse.dropWhile isPySpace).reverse

/-- Python `str.lower()`, per character, covering ASCII letters and the
Latin-1 accented uppercase range (which covers every character of the
configured keyword list and its case variants). -/
def pyLowerChar (c : Char) : Char :=
  if 65 ≤ c.toNat && c.toNat ≤ 90 then Char.ofNat (c.toNat + 32)
  else if 192 ≤ c.toNat && c.toNat ≤ 222 && c.toNat != 215 then Char.ofNat (c.toNat + 32)
  else c

/-- Python truthiness of an optional string: `None` and `""` are falsy. -/
def pyTruthy : Option Str → Bool
  | none => false
  | some s => !s.isEmpty

/-- Whether `pre` is a prefix of the second list (Python-style, by value). -/
def startsWithList : Str → Str → Bool
  | [], _ => true
  | _ :: _, [] => false
  | a :: as, b :: bs => a == b && startsWithList as bs

/-- Python `needle in haystack` substring containment. -/
def substringIn : Str → Str → Bool
  | needle, [] => needle.isEmpty
  | needle, c :: rest => startsWithList needle (c :: rest) || substringIn needle rest

/-- The string of an optional text, absent read as empty. -/
def strOf (text : Option Str) : Str := text.getD []

/-- Digit value of an ASCII digit character. -/
def digitVal (c : Char) : Nat := c.toNat - 48

/-- Scan the remaining characters of a Python integer literal: digits, with
single underscores allowed between digits. -/
def parseDigitsAux : Str → Nat → Option Nat
  | [], acc => some acc
  | '_' :: c :: rest, acc =>
      if c.isDigit then parseDigitsAux rest (acc * 10 + digitVal c) else none
  | ['_'], _ => none
  | c :: rest, acc =>
      if c.isDigit then parseDigitsAux rest (acc * 10 + digitVal c) else none

/-- A nonempty digit sequence (underscore-grouped), as in Python `int`. -/
def parseDigits (s : Str) : Option Nat :=
  match s with
  | [] => none
  | c :: rest => if c.isDigit then parseDigitsAux rest (digitVal c) else none

/-- Python `int(s)` on a decimal string: surrounding whitespace stripped,
optional sign, then digits; `none` models a raised `ValueError`. -/
def pyInt (s : Str) : Option Int :=
  match pyStrip s with
  | '+' :: rest => (parseDigits rest).map (fun n => (n : Int))
  | '-' :: rest => (parseDigits rest).map (fun n => -(n : Int))
  | t => (parseDigits t).map (fun n => (n : Int))

/-- Python exceptions relevant to the module-level configuration block at
bot.py lines 29-33. -/
inductive PyExc where
  | valueError (msg : Str)
  | nameError (msg : Str)

/-- Whether the name `os` is bound when bot.py line 31 executes: it is not
— the configuration block at lines 29-33 precedes `import os`, which only
occurs at line 36. -/
def os_bound_at_config_block : Bool := false

/-- The NameError message raised by evaluating the unbound name `os`. -/
def NAME_ERROR_OS : Str := "name \x27os\x27 is not defined".data

/-- The ValueError message head raised by `int(...)` on a non-parsing
string. -/
def VALUE_ERROR_INT : Str := "invalid literal for int() with base 10".data

/-- bot.py line 31, the body of the `try`:
`int(os.getenv("OPENAI_MAX_TOKENS", "400"))`. Evaluating the name `os`
raises NameError when it is unbound (it is bound only by `import os` at
line 36, after this block); with `os` bound, the environment read defaults
to `"400"` and `int` raises ValueError on a non-parsing string. -/
def max_tokens_try_body (env : Option Str) : Except PyExc Int :=
  if os_bound_at_config_block then
    match pyInt (env.getD "400".data) with
    | some n => .ok n
    | none => .error (.valueError VALUE_ERROR_INT)
  else .error (.nameError NAME_ERROR_OS)

/-- bot.py lines 30-33: the `try`/`except ValueError` around the
`OPENAI_MAX_TOKENS` read; only a ValueError is caught and replaced by the
default 400, any other exception propagates out of the module body. -/
def openai_max_tokens_read (env : Option Str) : Except PyExc Int :=
  match max_tokens_try_body env with
  | .ok n => .ok n
  | .error (.valueError _) => .ok 400
  | .error e => .error e

/-- bot.py line 95: the fixed legal disclaimer appended to every reply. -/
def DISCLAIMER : Str :=
  ("⚠️ Les informations fournies par cet assistant virtuel sont données à titre " ++
   "informatif uniquement et ne sauraient constituer un conseil juridique, fiscal " ++
   "ou immobilier personnalisé. Pour toute décision engageant des conséquences " ++
   "juridiques ou financières, il est fortement recommandé de consulter un " ++
   "professionnel qualifié (avocat, notaire, expert‑comptable). Aucune " ++
   "responsabilité ne pourra être retenue à l’encontre de l’auteur ou de l’éditeur " ++
   "de ce service en cas d’erreur ou d’omission.").data

/-- bot.py line 106: the ordered sensitive-keyword list. -/
def SENSITIVE_KEYWORDS : List Str :=
  ["procès".data, "avocat".data, "litige".data]

/-- bot.py lines 117-123: the fixed system instruction of `call_openai`. -/
def SYSTEM_MESSAGE : Str :=
  ("Vous êtes Mathieu Lantoine, agent immobilier spécialisé à Nice (06). " ++
   "Vous répondez en tant qu\x27assistant virtuel de Mathieu Lantoine. " ++
   "Vous devez répondre en français de manière factuelle, professionnelle et modeste. " ++
   "Si une question sort du domaine de l\x27immobilier ou du droit immobilier français, " ++
   "expliquez poliment que vous ne pouvez répondre qu\x27à ce type de question.").data

/-- bot.py lines 152-155: the fallback apology returned on any generation failure. -/
def APOLOGY : Str :=
  ("Je rencontre actuellement un problème pour générer une réponse via le modèle. " ++
   "Veuillez réessayer plus tard.").data

/-- bot.py line 151: the formatted message of `logger.exception` in `call_openai`
(exception text appended at the `%s` placeholder). -/
def OPENAI_ERROR_LOG_HEAD : Str :=
  "Erreur lors de l\x27appel à l\x27API OpenAI: ".data

/-- bot.py line 207: the formatted message of `logger.warning` when the admin
notification fails (exception text appended at the `%s` placeholder). -/
def ADMIN_WARNING_HEAD : Str :=
  "Impossible d\x27envoyer la notification admin : ".data

/-- bot.py line 221: the fixed message of `logger.error` in `error_handler`. -/
def UNHANDLED_LOG : Str := "Exception non gérée".data

/-- bot.py lines 223-225: the generic reply sent by `error_handler`. -/
def GENERIC_ERROR_REPLY : Str :=
  "Une erreur inattendue est survenue. Veuillez réessayer plus tard.".data

/-- The Python string error raised by `choices[0]` on an empty list. -/
def INDEX_ERROR_TEXT : Str := "list index out of range".data

/-- Startup configuration read from the environment (bot.py lines 29-33, 66). -/
structure Config where
  openai_model : Str
  openai_max_tokens : Int
  admin_chat_id : Option Str

/-- One chat message of the completion request/response. -/
structure ChatMsg where
  role : Str
  content : Str

/-- The completion request issued to the OpenAI backend. -/
structure GenRequest where
  model : Str
  messages : List ChatMsg
  temperature : ℚ
  max_tokens : Int

/-- One completion choice of a backend response. -/
structure Choice where
  message : ChatMsg

/-- A successful backend response. -/
structure ChatResponse where
  choices : List Choice

/-- A Telegram user (sender identity). -/
structure TgUser where
  id : Int
  first_name : Str

/-- A Telegram message; `text` may be absent. -/
structure TgMessage where
  text : Option Str

/-- A Telegram update as seen by the handlers. -/
structure TgUpdate where
  message : Option TgMessage
  effective_user : TgUser

/-- Observable effects performed by the handlers, in `await`/statement order. -/
inductive Effect where
  | logError (msg : Str) (excInfo : Option Str)
  | logWarning (msg : Str)
  | sendMessage (chat_id : Str) (text : Str)
  | generate (req : GenRequest)
  | replyText (text : Str)

/-- bot.py lines 127-135 / 140-148: the completion request built by
`call_openai` for a given prompt (identical in both SDK branches). -/
def openai_request (cfg : Config) (prompt : Str) : GenRequest where
  model := cfg.openai_model
  messages := [⟨"system".data, SYSTEM_MESSAGE⟩, ⟨"user".data, prompt⟩]
  temperature := 0.3
  max_tokens := cfg.openai_max_tokens

/-- bot.py lines 109-155: `call_openai`. The backend either returns a
response or raises (`Except.error`); the `try` block also covers the
`choices[0]` indexing, so an empty `choices` list likewise falls into the
`except` branch. Returns the result string together with the effects
performed. -/
def call_openai (asyncAvailable : Bool)
    (backend : GenRequest → Except Str ChatResponse)
    (cfg : Config) (prompt : Str) : Str × List Effect :=
  if asyncAvailable then
    match backend (openai_request cfg prompt) with
    | .ok response =>
      match response.choices.head? with
      | some c => (pyStrip c.message.content, [.generate (openai_request cfg prompt)])
      | none => (APOLOGY,
          [.generate (openai_request cfg prompt),
           .logError (OPENAI_ERROR_LOG_HEAD ++ INDEX_ERROR_TEXT) (some INDEX_ERROR_TEXT)])
    | .error exc => (APOLOGY,
        [.generate (openai_request cfg prompt),
         .logError (OPENAI_ERROR_LOG_HEAD ++ exc) (some exc)])
  else
    match backend (openai_request cfg prompt) with
    | .ok completion =>
      match completion.choices.head? with
      | some c => (pyStrip c.message.content, [.generate (openai_request cfg prompt)])
      | none => (APOLOGY,
          [.generate (openai_request cfg prompt),
           .logError (OPENAI_ERROR_LOG_HEAD ++ INDEX_ERROR_TEXT) (some INDEX_ERROR_TEXT)])
    | .error exc => (APOLOGY,
        [.generate (openai_request cfg prompt),
         .logError (OPENAI_ERROR_LOG_HEAD ++ exc) (some exc)])

/-- bot.py lines 158-164: `contains_sensitive_keyword`, the `for` loop
returning the first keyword contained in the lowercased text. -/
def findKeyword : List Str → Str → Option Str
  | [], _ => none
  | k :: ks, t => if substringIn k t then some k else findKeyword ks t

/-- bot.py lines 158-164: lowercase the text when truthy (else use `""`),
then scan the keyword list in order. -/
def contains_sensitive_keyword (text : Option Str) : Option Str :=
  let lower_text := if pyTruthy text then (strOf text).map pyLowerChar else []
  findKeyword SENSITIVE_KEYWORDS lower_text

/-- bot.py lines 201-204: the admin notification body (f-string). -/
def notify_message (sensitive : Str) (user : TgUser) : Str :=
  "Mot clé sensible détecté\u00A0: \x27".data ++ sensitive ++
    "\x27 dans le message de ".data ++ user.first_name ++
    " (".data ++ (toString user.id).data ++ ").".data

/-- bot.py line 195: `update.message.text.strip() if update.message.text else ""`. -/
def user_text_of (msg : TgMessage) : Str :=
  if pyTruthy msg.text then pyStrip (strOf msg.text) else []

/-- bot.py lines 197-207: the conditional admin-alert block of
`message_handler`. The `send_message` call is awaited; when it raises
(`alertOutcome = .error exc`), the exception is caught and a warning is
logged (bot.py lines 206-207). -/
def alert_effects (cfg : Config) (alertOutcome : Except Str Unit)
    (user : TgUser) (sensitive : Option Str) : List Effect :=
  if pyTruthy sensitive && pyTruthy cfg.admin_chat_id then
    Effect.sendMessage (strOf cfg.admin_chat_id)
        (notify_message (strOf sensitive) user) ::
      (match alertOutcome with
       | .ok _ => []
       | .error exc => [.logWarning (ADMIN_WARNING_HEAD ++ exc)])
  else []

/-- bot.py lines 190-216: `message_handler`. `alertOutcome` is the result of
the awaited `context.bot.send_message` (only consulted when that call is
made); `backend` is the OpenAI collaborator. Returns the effects in the
sequential order the coroutine performs them. -/
def message_handler (asyncAvailable : Bool) (cfg : Config)
    (alertOutcome : Except Str Unit)
    (backend : GenRequest → Except Str ChatResponse)
    (upd : TgUpdate) : List Effect :=
  match upd.message with
  | none => []
  | some msg =>
    let user_text := user_text_of msg
    let sensitive := contains_sensitive_keyword (some user_text)
    let alertFx := alert_effects cfg alertOutcome upd.effective_user sensitive
    let gen := call_openai asyncAvailable backend cfg user_text
    let full_response := gen.fst ++ "\n\n".data ++ DISCLAIMER
    alertFx ++ gen.snd ++ [.replyText full_response]

/-- bot.py lines 219-225: `error_handler`. `err` is the uncaught exception
text; `upd` is `none` when the update object is not a `telegram.Update`. -/
def error_handler (err : Str) (upd : Option TgUpdate) : List Effect :=
  Effect.logError UNHANDLED_LOG (some err) ::
    match upd with
    | some u =>
      match u.message with
      | some _ => [.replyText GENERIC_ERROR_REPLY]
      | none => []
    | none => []

/-- Whether `message_handler` attempts the admin alert for this update. -/
def alertAttempted (cfg : Config) (upd : TgUpdate) : Bool :=
  match upd.message with
  | none => false
  | some m =>
      pyTruthy (contains_sensitive_keyword (some (user_text_of m))) &&
        pyTruthy cfg.admin_chat_id

/-- Recognise a reply effect. -/
def isReply : Effect → Bool
  | .replyText _ => true
  | _ => false

/-- Recognise a completion-request effect. -/
def isGenerate : Effect → Bool
  | .generate _ => true
  | _ => false

/-- Recognise an outbound side-channel message effect. -/
def isSendMessage : Effect → Bool
  | .sendMessage _ _ => true
  | _ => false

/-- Number of replies sent in a trace. -/
def numReplies (tr : List Effect) : Nat := (tr.filter isReply).length

/-- Number of completion requests issued in a trace. -/
def numGenerates (tr : List Effect) : Nat := (tr.filter isGenerate).length

/-- The reply texts of a trace, in order. -/
def repliesOf (tr : List Effect) : List Str :=
  tr.filterMap fun e => match e with | .replyText s => some s | _ => none

/-- The completion requests of a trace, in order. -/
def generatesOf (tr : List Effect) : List GenRequest :=
  tr.filterMap fun e => match e with | .generate r => some r | _ => none

/-- The outbound side-channel messages of a trace: (chat id, body). -/
def alertsOf (tr : List Effect) : List (Str × Str) :=
  tr.filterMap fun e => match e with | .sendMessage c t => some (c, t) | _ => none

/-- The warning log lines of a trace. -/
def warningsOf (tr : List Effect) : List Str :=
  tr.filterMap fun e => match e with | .logWarning s => some s | _ => none

/-- The user-role prompt carried by a completion request (second message). -/
def requestPrompt (req : GenRequest) : Str :=
  ((req.messages.get? 1).map ChatMsg.content).getD []

/-- The claim's notion of a case-insensitive occurrence: the lowercased
keyword appears as a contiguous substring of the lowercased text. -/
def occursCI (k T : Str) : Prop :=
  ∃ pre post, T.map pyLowerChar = pre ++ k.map pyLowerChar ++ post

/- Concrete fixtures used by witnesses and counterexamples. -/

/-- A sample sender. -/
def sampleUser : TgUser := ⟨12345, "Jean".data⟩

/-- A sample configuration with an admin chat configured. -/
def sampleCfg : Config := ⟨"gpt-3.5-turbo".data, 400, some "999".data⟩

/-- A sample configuration without an admin chat. -/
def sampleCfgNoAdmin : Config := ⟨"gpt-3.5-turbo".data, 400, none⟩

/-- A backend that succeeds with one choice. -/
def backendOk : GenRequest → Except Str ChatResponse :=
  fun _ => .ok ⟨[⟨⟨"assistant".data, " Bonjour ".data⟩⟩]⟩

/-- A backend that raises. -/
def backendErr : GenRequest → Except Str ChatResponse :=
  fun _ => .error "boom".data

/-- An update carrying the given text. -/
def updOf (t : String) : TgUpdate := ⟨some ⟨some t.data⟩, sampleUser⟩

/-- An update with no message payload. -/
def updNoMessage : TgUpdate := ⟨none, sampleUser⟩

/-!  Structural lemmas shared by the claim theorems. -/

/-- The stripped text computed by `message_handler` line 195 equals
stripping the raw text (absent text read as empty). -/
theorem user_text_of_eq (msg : TgMessage) :
    user_text_of msg = pyStrip (strOf msg.text) := by
  cases msg with
  | mk text =>
    cases text with
    | none => rfl
    | some t => cases t <;> rfl

/-- Unfolding of `message_handler` on an update that carries a message. -/
theorem message_handler_some (b : Bool) (cfg : Config) (oc : Except Str Unit)
    (backend : GenRequest → Except Str ChatResponse) (upd : TgUpdate)
    (m : TgMessage) (hm : upd.message = some m) :
    message_handler b cfg oc backend upd =
      alert_effects cfg oc upd.effective_user
          (contains_sensitive_keyword (some (user_text_of m))) ++
        (call_openai b backend cfg (user_text_of m)).snd ++
        [Effect.replyText
          ((call_openai b backend cfg (user_text_of m)).fst ++ "\n\n".data ++ DISCLAIMER)] := by
  obtain ⟨msg, u⟩ := upd
  simp only at hm
  subst hm
  rfl

/-- The effect trace of `call_openai`: exactly one completion request (the
request built from the prompt), no replies, no outbound messages, no
warnings. -/
theorem call_openai_trace (b : Bool) (backend : GenRequest → Except Str ChatResponse)
    (cfg : Config) (prompt : Str) :
    repliesOf (call_openai b backend cfg prompt).snd = [] ∧
    generatesOf (call_openai b backend cfg prompt).snd = [openai_request cfg prompt] ∧
    alertsOf (call_openai b backend cfg prompt).snd = [] ∧
    warningsOf (call_openai b backend cfg prompt).snd = [] ∧
    numGenerates (call_openai b backend cfg prompt).snd = 1 ∧
    numReplies (call_openai b backend cfg prompt).snd = 0 := by
  unfold call_openai
  split <;> split <;> (try split) <;>
    simp [repliesOf, generatesOf, alertsOf, warningsOf, numGenerates, numReplies,
      isGenerate, isReply]

/-- The effect trace of the alert block. -/
theorem alert_effects_trace (cfg : Config) (oc : Except Str Unit)
    (u : TgUser) (s : Option Str) :
    repliesOf (alert_effects cfg oc u s) = [] ∧
    generatesOf (alert_effects cfg oc u s) = [] ∧
    alertsOf (alert_effects cfg oc u s) =
      (if pyTruthy s && pyTruthy cfg.admin_chat_id then
        [(strOf cfg.admin_chat_id, notify_message (strOf s) u)] else []) ∧
    warningsOf (alert_effects cfg oc u s) =
      (if pyTruthy s && pyTruthy cfg.admin_chat_id then
        (match oc with | .ok _ => [] | .error exc => [ADMIN_WARNING_HEAD ++ exc]) else []) ∧
    numGenerates (alert_effects cfg oc u s) = 0 ∧
    numReplies (alert_effects cfg oc u s) = 0 := by
  unfold alert_effects
  by_cases h : (pyTruthy s && pyTruthy cfg.admin_chat_id) = true <;>
    cases oc <;>
    simp [h, repliesOf, generatesOf, alertsOf, warningsOf, numGenerates, numReplies,
      isGenerate, isReply, List.filterMap, List.filter]

/-- Unfolding of `message_handler` on an update with no message payload. -/
theorem message_handler_none (b : Bool) (cfg : Config) (oc : Except Str Unit)
    (backend : GenRequest → Except Str ChatResponse) (upd : TgUpdate)
    (hm : upd.message = none) :
    message_handler b cfg oc backend upd = [] := by
  obtain ⟨msg, u⟩ := upd
  simp only at hm
  subst hm
  rfl

/-- On a backend exception, `call_openai` returns the apology. -/
theorem call_openai_fst_error (b : Bool)
    (backend : GenRequest → Except Str ChatResponse) (cfg : Config)
    (prompt exc : Str) (hb : backend (openai_request cfg prompt) = .error exc) :
    (call_openai b backend cfg prompt).fst = APOLOGY := by
  cases b <;> simp [call_openai, hb]

/-- Reply extraction distributes over trace concatenation. -/
theorem repliesOf_append (l₁ l₂ : List Effect) :
    repliesOf (l₁ ++ l₂) = repliesOf l₁ ++ repliesOf l₂ := by
  simp [repliesOf]

/-- Request extraction distributes over trace concatenation. -/
theorem generatesOf_append (l₁ l₂ : List Effect) :
    generatesOf (l₁ ++ l₂) = generatesOf l₁ ++ generatesOf l₂ := by
  simp [generatesOf]

/-- Alert extraction distributes over trace concatenation. -/
theorem alertsOf_append (l₁ l₂ : List Effect) :
    alertsOf (l₁ ++ l₂) = alertsOf l₁ ++ alertsOf l₂ := by
  simp [alertsOf]

/-- Warning extraction distributes over trace concatenation. -/
theorem warningsOf_append (l₁ l₂ : List Effect) :
    warningsOf (l₁ ++ l₂) = warningsOf l₁ ++ warningsOf l₂ := by
  simp [warningsOf]

/-- Reply counting adds over trace concatenation. -/
theorem numReplies_append (l₁ l₂ : List Effect) :
    numReplies (l₁ ++ l₂) = numReplies l₁ + numReplies l₂ := by
  simp [numReplies, List.filter_append]

/-- Request counting adds over trace concatenation. -/
theorem numGenerates_append (l₁ l₂ : List Effect) :
    numGenerates (l₁ ++ l₂) = numGenerates l₁ + numGenerates l₂ := by
  simp [numGenerates, List.filter_append]

/-- C10: for every value of the `OPENAI_MAX_TOKENS` environment variable —
parsing as an integer or not — the configuration read raises NameError
(`os` is referenced at bot.py line 31 but bound only by `import os` at
line 36), which `except ValueError` does not catch; the silent fallback to
400 that the `try`/`except` was written for is unreachable, so the read
never yields any value at all. -/
theorem c10_read_raises_nameerror (env : Option Str) :
    openai_max_tokens_read env = .error (.nameError NAME_ERROR_OS) ∧
    ∀ n : Int, openai_max_tokens_read env ≠ .ok n := by
  refine ⟨rfl, fun n h => ?_⟩
  rw [show openai_max_tokens_read env = .error (.nameError NAME_ERROR_OS) from rfl] at h
  exact Except.noConfusion h

/-- C9: for any two prompts, the completion requests built by `call_openai`
carry the same fixed system instruction (not derived from the user's
message), the same temperature 0.3 = 3/10, the same configured model and
maximum-token budget; only the user-message content differs — and
`call_openai` issues exactly this request. -/
theorem c9_request_uniformity (cfg : Config) (p q : Str) :
    (openai_request cfg p).messages =
      [⟨"system".data, SYSTEM_MESSAGE⟩, ⟨"user".data, p⟩] ∧
    (openai_request cfg p).messages.head? = (openai_request cfg q).messages.head? ∧
    (openai_request cfg p).temperature = 3 / 10 ∧
    (openai_request cfg q).temperature = 3 / 10 ∧
    (openai_request cfg p).max_tokens = (openai_request cfg q).max_tokens ∧
    (openai_request cfg p).model = (openai_request cfg q).model ∧
    (openai_request cfg p).messages.map ChatMsg.role =
      (openai_request cfg q).messages.map ChatMsg.role ∧
    ∀ (b : Bool) (backend : GenRequest → Except Str ChatResponse),
      generatesOf (call_openai b backend cfg p).snd = [openai_request cfg p] := by
  refine ⟨rfl, rfl, by norm_num [openai_request], by norm_num [openai_request], rfl, rfl, rfl,
    fun b backend => (call_openai_trace b backend cfg p).2.1⟩

/-- C8: `error_handler` on an uncaught fault for an update that carries the
originating message logs the fault (with the exception attached) and sends
exactly one generic "unexpected error, try again later" reply. -/
theorem c8_error_handler (err : Str) (upd : TgUpdate) (m : TgMessage)
    (hm : upd.message = some m) :
    error_handler err (some upd) =
      [Effect.logError UNHANDLED_LOG (some err), Effect.replyText GENERIC_ERROR_REPLY] ∧
    repliesOf (error_handler err (some upd)) = [GENERIC_ERROR_REPLY] := by
  obtain ⟨msg, u⟩ := upd
  simp only at hm
  subst hm
  exact ⟨rfl, rfl⟩

/-- C8 witness: a concrete fault on a concrete message-bearing update. -/
theorem c8_witness :
    error_handler "E".data (some (updOf "bonjour")) =
      [Effect.logError UNHANDLED_LOG (some "E".data),
       Effect.replyText GENERIC_ERROR_REPLY] ∧
    repliesOf (error_handler "E".data (some (updOf "bonjour"))) = [GENERIC_ERROR_REPLY] :=
  c8_error_handler "E".data (updOf "bonjour") ⟨some "bonjour".data⟩ rfl

/-- C3: `call_openai` never raises: on backend success with a first choice
it returns that choice's trimmed content; on a backend exception it returns
the fixed apology and logs the error. -/
theorem c3_call_openai_total (b : Bool)
    (backend : GenRequest → Except Str ChatResponse) (cfg : Config) (prompt : Str) :
    (∀ resp c rest,
        backend (openai_request cfg prompt) = .ok resp →
        resp.choices = c :: rest →
        (call_openai b backend cfg prompt).fst = pyStrip c.message.content) ∧
    (∀ exc,
        backend (openai_request cfg prompt) = .error exc →
        (call_openai b backend cfg prompt).fst = APOLOGY ∧
          Effect.logError (OPENAI_ERROR_LOG_HEAD ++ exc) (some exc) ∈
            (call_openai b backend cfg prompt).snd) := by
  constructor
  · intro resp c rest hb hc
    cases b <;> simp [call_openai, hb, hc]
  · intro exc hb
    cases b <;> simp [call_openai, hb]

/-- C3 witness: a raising backend yields the apology and an error log; a
succeeding backend yields the trimmed first choice. -/
theorem c3_witness :
    ((call_openai true backendErr sampleCfg "hi".data).fst = APOLOGY ∧
      Effect.logError (OPENAI_ERROR_LOG_HEAD ++ "boom".data) (some "boom".data) ∈
        (call_openai true backendErr sampleCfg "hi".data).snd) ∧
    (call_openai true backendOk sampleCfg "hi".data).fst = pyStrip " Bonjour ".data :=
  ⟨(c3_call_openai_total true backendErr sampleCfg "hi".data).2 "boom".data rfl,
   (c3_call_openai_total true backendOk sampleCfg "hi".data).1
     ⟨[⟨⟨"assistant".data, " Bonjour ".data⟩⟩]⟩ ⟨⟨"assistant".data, " Bonjour ".data⟩⟩ [] rfl rfl⟩

/-- C2: the reply sent by `message_handler` is always the generated text,
a blank-line separator, then the fixed disclaimer; every sent reply ends
with the exact disclaimer, including when the generated text is the
fallback apology. -/
theorem c2_reply_composition (b : Bool) (cfg : Config) (oc : Except Str Unit)
    (backend : GenRequest → Except Str ChatResponse) (upd : TgUpdate)
    (m : TgMessage) (hm : upd.message = some m) :
    repliesOf (message_handler b cfg oc backend upd) =
      [(call_openai b backend cfg (user_text_of m)).fst ++ "\n\n".data ++ DISCLAIMER] ∧
    (∀ r ∈ repliesOf (message_handler b cfg oc backend upd),
        ∃ pre, r = pre ++ "\n\n".data ++ DISCLAIMER) ∧
    (∀ exc, backend (openai_request cfg (user_text_of m)) = .error exc →
        repliesOf (message_handler b cfg oc backend upd) =
          [APOLOGY ++ "\n\n".data ++ DISCLAIMER]) := by
  have h1 : repliesOf (message_handler b cfg oc backend upd) =
      [(call_openai b backend cfg (user_text_of m)).fst ++ "\n\n".data ++ DISCLAIMER] := by
    rw [message_handler_some b cfg oc backend upd m hm, repliesOf_append, repliesOf_append,
      (alert_effects_trace cfg oc upd.effective_user _).1,
      (call_openai_trace b backend cfg (user_text_of m)).1]
    rfl
  refine ⟨h1, ?_, ?_⟩
  · intro r hr
    rw [h1, List.mem_singleton] at hr
    exact ⟨(call_openai b backend cfg (user_text_of m)).fst, hr⟩
  · intro exc hb
    rw [h1, call_openai_fst_error b backend cfg (user_text_of m) exc hb]

/-- C2 witness: with a raising backend, the reply is the apology followed
by the blank line and the disclaimer. -/
theorem c2_witness :
    repliesOf (message_handler true sampleCfg (.ok ()) backendErr (updOf "bonjour")) =
      [APOLOGY ++ "\n\n".data ++ DISCLAIMER] :=
  (c2_reply_composition true sampleCfg (.ok ()) backendErr (updOf "bonjour")
    ⟨some "bonjour".data⟩ rfl).2.2 "boom".data rfl

/-- C6: a failure of the admin alert is caught and logged as a warning
inside `message_handler`, and processing continues unchanged — the replies
and the completion requests are identical to those of a successful alert. -/
theorem c6_alert_failure_isolated (b : Bool) (cfg : Config)
    (backend : GenRequest → Except Str ChatResponse) (upd : TgUpdate) (exc : Str) :
    repliesOf (message_handler b cfg (.error exc) backend upd) =
      repliesOf (message_handler b cfg (.ok ()) backend upd) ∧
    generatesOf (message_handler b cfg (.error exc) backend upd) =
      generatesOf (message_handler b cfg (.ok ()) backend upd) ∧
    warningsOf (message_handler b cfg (.error exc) backend upd) =
      (if alertAttempted cfg upd then [ADMIN_WARNING_HEAD ++ exc] else []) := by
  cases hu : upd.message with
  | none =>
    rw [message_handler_none b cfg (.error exc) backend upd hu,
      message_handler_none b cfg (.ok ()) backend upd hu]
    simp [alertAttempted, hu, repliesOf, generatesOf, warningsOf]
  | some m =>
    rw [message_handler_some b cfg (.error exc) backend upd m hu,
      message_handler_some b cfg (.ok ()) backend upd m hu]
    refine ⟨?_, ?_, ?_⟩
    · rw [repliesOf_append, repliesOf_append, repliesOf_append, repliesOf_append,
        (alert_effects_trace cfg (.error exc) upd.effective_user _).1,
        (alert_effects_trace cfg (.ok ()) upd.effective_user _).1]
    · rw [generatesOf_append, generatesOf_append, generatesOf_append, generatesOf_append,
        (alert_effects_trace cfg (.error exc) upd.effective_user _).2.1,
        (alert_effects_trace cfg (.ok ()) upd.effective_user _).2.1]
    · rw [warningsOf_append, warningsOf_append,
        (alert_effects_trace cfg (.error exc) upd.effective_user _).2.2.2.1,
        (call_openai_trace b backend cfg (user_text_of m)).2.2.2.1]
      simp [alertAttempted, hu, warningsOf]

/-- C5: exactly one admin alert is attempted iff a sensitive keyword
matched and an alert destination is configured (truthy); the alert is
addressed to that destination and its body contains the matched keyword,
the sender's display name, and the sender's identifier; with no destination
no alert is attempted even if a keyword matches. -/
theorem c5_admin_alert (b : Bool) (cfg : Config) (oc : Except Str Unit)
    (backend : GenRequest → Except Str ChatResponse) (upd : TgUpdate)
    (m : TgMessage) (hm : upd.message = some m) :
    (alertsOf (message_handler b cfg oc backend upd)).length =
      (if alertAttempted cfg upd then 1 else 0) ∧
    (∀ a ∈ alertsOf (message_handler b cfg oc backend upd),
        a.1 = strOf cfg.admin_chat_id ∧
        (∃ k, contains_sensitive_keyword (some (user_text_of m)) = some k ∧
            ∃ p q, a.2 = p ++ k ++ q) ∧
        (∃ p q, a.2 = p ++ upd.effective_user.first_name ++ q) ∧
        (∃ p q, a.2 = p ++ (toString upd.effective_user.id).data ++ q)) := by
  have halerts : alertsOf (message_handler b cfg oc backend upd) =
      (if pyTruthy (contains_sensitive_keyword (some (user_text_of m))) &&
            pyTruthy cfg.admin_chat_id then
        [(strOf cfg.admin_chat_id,
          notify_message (strOf (contains_sensitive_keyword (some (user_text_of m))))
            upd.effective_user)]
      else []) := by
    rw [message_handler_some b cfg oc backend upd m hm, alertsOf_append, alertsOf_append,
      (alert_effects_trace cfg oc upd.effective_user _).2.2.1,
      (call_openai_trace b backend cfg (user_text_of m)).2.2.1]
    simp [alertsOf]
  constructor
  · rw [halerts]
    simp only [alertAttempted, hm]
    split <;> simp
  · intro a ha
    rw [halerts] at ha
    by_cases hc : (pyTruthy (contains_sensitive_keyword (some (user_text_of m))) &&
        pyTruthy cfg.admin_chat_id) = true
    · rw [if_pos hc, List.mem_singleton] at ha
      subst ha
      obtain ⟨k, hk⟩ : ∃ k, contains_sensitive_keyword (some (user_text_of m)) = some k := by
        rcases hs : contains_sensitive_keyword (some (user_text_of m)) with _ | k
        · rw [hs] at hc
          simp [pyTruthy] at hc
        · exact ⟨k, rfl⟩
      refine ⟨rfl, ⟨k, hk, ?_⟩, ?_, ?_⟩
      · exact ⟨"Mot clé sensible détecté\u00A0: \x27".data,
          "\x27 dans le message de ".data ++ upd.effective_user.first_name ++
            " (".data ++ (toString upd.effective_user.id).data ++ ").".data,
          by simp [notify_message, hk, strOf, List.append_assoc]⟩
      · exact ⟨"Mot clé sensible détecté\u00A0: \x27".data ++
            strOf (contains_sensitive_keyword (some (user_text_of m))) ++
            "\x27 dans le message de ".data,
          " (".data ++ (toString upd.effective_user.id).data ++ ").".data,
          by simp [notify_message, List.append_assoc]⟩
      · exact ⟨"Mot clé sensible détecté\u00A0: \x27".data ++
            strOf (contains_sensitive_keyword (some (user_text_of m))) ++
            "\x27 dans le message de ".data ++ upd.effective_user.first_name ++ " (".data,
          ").".data,
          by simp [notify_message, List.append_assoc]⟩
    · rw [if_neg hc] at ha
      simp at ha

/-- C5 witness: a message containing "procès" with a configured admin chat
produces exactly one alert, and none is produced without a destination. -/
theorem c5_witness :
    (alertsOf (message_handler true sampleCfg (.ok ()) backendOk (updOf "mon procès"))).length =
      (if alertAttempted sampleCfg (updOf "mon procès") then 1 else 0) ∧
    (alertsOf (message_handler true sampleCfgNoAdmin (.ok ()) backendOk
        (updOf "mon procès"))).length =
      (if alertAttempted sampleCfgNoAdmin (updOf "mon procès") then 1 else 0) :=
  ⟨(c5_admin_alert true sampleCfg (.ok ()) backendOk (updOf "mon procès")
      ⟨some "mon procès".data⟩ rfl).1,
   (c5_admin_alert true sampleCfgNoAdmin (.ok ()) backendOk (updOf "mon procès")
      ⟨some "mon procès".data⟩ rfl).1⟩

/-- The completion request built for a prompt carries that prompt as its
user message. -/
theorem requestPrompt_openai (cfg : Config) (p : Str) :
    requestPrompt (openai_request cfg p) = p := rfl

/-- C1 counterexample: the claim asserts that an update whose message text
is empty or whitespace-only terminates `message_handler` with no reply and
no generation call; on the code this is false — a whitespace-only text
(`"   "`) still produces a generation call and a reply. -/
theorem c1_counterexample :
    ¬ (∀ (b : Bool) (cfg : Config) (oc : Except Str Unit)
          (backend : GenRequest → Except Str ChatResponse)
          (upd : TgUpdate) (m : TgMessage),
        upd.message = some m → pyStrip (strOf m.text) = [] →
        numReplies (message_handler b cfg oc backend upd) = 0 ∧
        numGenerates (message_handler b cfg oc backend upd) = 0) := by
  intro h
  have h2 := (h true sampleCfg (.ok ()) backendOk (updOf "   ") ⟨some "   ".data⟩ rfl
    (by decide)).1
  have h1 : numReplies (message_handler true sampleCfg (.ok ()) backendOk (updOf "   ")) = 1 := by
    decide
  rw [h1] at h2
  exact absurd h2 (by decide)

/-- C1 amended: `message_handler` terminates immediately with no effects
only when the update carries no message object; an empty or whitespace-only
text does not short-circuit the pipeline — it still issues exactly one
generation call, whose user prompt is the empty string, and sends exactly
one reply. -/
theorem c1_amended_no_guard (b : Bool) (cfg : Config) (oc : Except Str Unit)
    (backend : GenRequest → Except Str ChatResponse) (upd : TgUpdate) :
    (upd.message = none → message_handler b cfg oc backend upd = []) ∧
    (∀ m, upd.message = some m → pyStrip (strOf m.text) = [] →
        numGenerates (message_handler b cfg oc backend upd) = 1 ∧
        numReplies (message_handler b cfg oc backend upd) = 1 ∧
        (generatesOf (message_handler b cfg oc backend upd)).map requestPrompt = [[]]) := by
  constructor
  · exact message_handler_none b cfg oc backend upd
  · intro m hm hws
    have ht : user_text_of m = [] := by rw [user_text_of_eq, hws]
    refine ⟨?_, ?_, ?_⟩
    · rw [message_handler_some b cfg oc backend upd m hm, numGenerates_append,
        numGenerates_append, (alert_effects_trace cfg oc upd.effective_user _).2.2.2.2.1,
        (call_openai_trace b backend cfg (user_text_of m)).2.2.2.2.1]
      simp [numGenerates, isGenerate, List.filter]
    · rw [message_handler_some b cfg oc backend upd m hm, numReplies_append,
        numReplies_append, (alert_effects_trace cfg oc upd.effective_user _).2.2.2.2.2,
        (call_openai_trace b backend cfg (user_text_of m)).2.2.2.2.2]
      simp [numReplies, isReply, List.filter]
    · rw [message_handler_some b cfg oc backend upd m hm, generatesOf_append,
        generatesOf_append, (alert_effects_trace cfg oc upd.effective_user _).2.1,
        (call_openai_trace b backend cfg (user_text_of m)).2.1, ht]
      simp [generatesOf, requestPrompt_openai]

/-- C1 witness: the whitespace-only message, concretely. -/
theorem c1_witness :
    numGenerates (message_handler true sampleCfg (.ok ()) backendOk (updOf "   ")) = 1 ∧
    numReplies (message_handler true sampleCfg (.ok ()) backendOk (updOf "   ")) = 1 ∧
    (generatesOf (message_handler true sampleCfg (.ok ()) backendOk
        (updOf "   "))).map requestPrompt = [[]] :=
  (c1_amended_no_guard true sampleCfg (.ok ()) backendOk (updOf "   ")).2
    ⟨some "   ".data⟩ rfl (by decide)

/-- C7 counterexample: the claim asserts the alert dispatch is
fire-and-forget and not awaited synchronously before the generation call;
in this concrete execution the alert send occupies position 0 of the
sequential effect trace, its failure is caught and logged at position 1,
and only then is the generation request issued at position 2 — the alert
is fully awaited (outcome observed) before generation begins. -/
theorem c7_counterexample :
    alertAttempted sampleCfg (updOf "mon procès") = true ∧
    (message_handler true sampleCfg (.error "netfail".data) backendOk
        (updOf "mon procès")).findIdx isSendMessage = 0 ∧
    (message_handler true sampleCfg (.error "netfail".data) backendOk
        (updOf "mon procès")).findIdx isGenerate = 2 ∧
    warningsOf (message_handler true sampleCfg (.error "netfail".data) backendOk
        (updOf "mon procès")) = [ADMIN_WARNING_HEAD ++ "netfail".data] := by
  refine ⟨by decide, by decide, by decide, by decide⟩

/-- C7 amended: whenever an alert is attempted, `message_handler` awaits
the alert send (and any logging of its failure) strictly before issuing the
generation request — the two are sequential, not concurrent; however the
alert outcome never prevents generation or the reply, which still occur
exactly once. -/
theorem c7_amended_synchronous_alert (b : Bool) (cfg : Config) (oc : Except Str Unit)
    (backend : GenRequest → Except Str ChatResponse) (upd : TgUpdate)
    (h : alertAttempted cfg upd = true) :
    (message_handler b cfg oc backend upd).findIdx isSendMessage <
      (message_handler b cfg oc backend upd).findIdx isGenerate ∧
    numGenerates (message_handler b cfg oc backend upd) = 1 ∧
    numReplies (message_handler b cfg oc backend upd) = 1 := by
  rcases hu : upd.message with _ | m
  · simp [alertAttempted, hu] at h
  · have hcond : (pyTruthy (contains_sensitive_keyword (some (user_text_of m))) &&
        pyTruthy cfg.admin_chat_id) = true := by
      simpa [alertAttempted, hu] using h
    refine ⟨?_, ?_, ?_⟩
    · rw [message_handler_some b cfg oc backend upd m hu]
      unfold alert_effects
      rw [if_pos hcond]
      simp only [List.cons_append, List.findIdx_cons, isSendMessage, isGenerate,
        Bool.cond_true, Bool.cond_false]
      omega
    · rw [message_handler_some b cfg oc backend upd m hu, numGenerates_append,
        numGenerates_append, (alert_effects_trace cfg oc upd.effective_user _).2.2.2.2.1,
        (call_openai_trace b backend cfg (user_text_of m)).2.2.2.2.1]
      simp [numGenerates, isGenerate, List.filter]
    · rw [message_handler_some b cfg oc backend upd m hu, numReplies_append,
        numReplies_append, (alert_effects_trace cfg oc upd.effective_user _).2.2.2.2.2,
        (call_openai_trace b backend cfg (user_text_of m)).2.2.2.2.2]
      simp [numReplies, isReply, List.filter]

/-- C7 amended witness: the keyword-bearing message with a configured admin
chat, concretely. -/
theorem c7_witness :
    (message_handler true sampleCfg (.ok ()) backendOk (updOf "mon procès")).findIdx
        isSendMessage <
      (message_handler true sampleCfg (.ok ()) backendOk (updOf "mon procès")).findIdx
        isGenerate ∧
    numGenerates (message_handler true sampleCfg (.ok ()) backendOk (updOf "mon procès")) = 1 ∧
    numReplies (message_handler true sampleCfg (.ok ()) backendOk (updOf "mon procès")) = 1 :=
  c7_amended_synchronous_alert true sampleCfg (.ok ()) backendOk (updOf "mon procès") (by decide)

/-- `startsWithList` recognises exactly the prefixes. -/
theorem startsWithList_iff (n h : Str) :
    startsWithList n h = true ↔ ∃ post, h = n ++ post := by
  induction n generalizing h with
  | nil =>
    constructor
    · intro _
      exact ⟨h, rfl⟩
    · intro _
      rfl
  | cons a as ih =>
    cases h with
    | nil => simp [startsWithList]
    | cons b bs =>
      simp only [startsWithList, Bool.and_eq_true, beq_iff_eq, ih, List.cons_append]
      constructor
      · rintro ⟨rfl, post, rfl⟩
        exact ⟨post, rfl⟩
      · rintro ⟨post, hp⟩
        injection hp with h1 h2
        exact ⟨h1.symm, post, h2⟩

/-- `substringIn` recognises exactly the contiguous substrings (Python `in`). -/
theorem substringIn_iff (n h : Str) :
    substringIn n h = true ↔ ∃ pre post, h = pre ++ n ++ post := by
  induction h with
  | nil =>
    simp only [substringIn, List.isEmpty_iff]
    constructor
    · rintro rfl
      exact ⟨[], [], rfl⟩
    · rintro ⟨pre, post, hp⟩
      have h3 := hp.symm
      simp only [List.append_eq_nil] at h3
      exact h3.1.2
  | cons c rest ih =>
    simp only [substringIn, Bool.or_eq_true, startsWithList_iff, ih]
    constructor
    · rintro (⟨post, hp⟩ | ⟨pre, post, hp⟩)
      · exact ⟨[], post, by simpa using hp⟩
      · exact ⟨c :: pre, post, by simp [hp]⟩
    · rintro ⟨pre, post, hp⟩
      cases pre with
      | nil =>
        left
        exact ⟨post, by simpa using hp⟩
      | cons x xs =>
        right
        rw [List.cons_append, List.cons_append] at hp
        injection hp with h1 h2
        exact ⟨xs, post, h2⟩

/-- For a keyword that is already lowercase, the code's check against the
lowercased text coincides with case-insensitive occurrence in the text. -/
theorem substringIn_lower_iff (k : Str) (hk : k.map pyLowerChar = k) (T : Str) :
    substringIn k (T.map pyLowerChar) = true ↔ occursCI k T := by
  unfold occursCI
  rw [substringIn_iff, hk]

/-- The keyword scan lowercases the text exactly when it is truthy, which
coincides with mapping `pyLowerChar` over the (possibly empty) text. -/
theorem contains_eq (text : Option Str) :
    contains_sensitive_keyword text =
      findKeyword SENSITIVE_KEYWORDS ((strOf text).map pyLowerChar) := by
  rcases text with _ | s
  · rfl
  · rcases s with _ | ⟨c, cs⟩ <;> rfl

/-- A falsy optional text reads as the empty string. -/
theorem strOf_falsy (text : Option Str) (hf : pyTruthy text = false) :
    strOf text = [] := by
  rcases text with _ | s
  · rfl
  · rcases s with _ | ⟨c, cs⟩
    · rfl
    · simp [pyTruthy] at hf

/-- The scan over a list of lowercase keywords returns the first keyword
(in list order) occurring case-insensitively in the text, and returns none
exactly when no keyword occurs. -/
theorem findKeyword_spec (ks : List Str) (text : Option Str)
    (hks : ∀ k ∈ ks, k.map pyLowerChar = k) :
    (∀ k, findKeyword ks ((strOf text).map pyLowerChar) = some k →
        ∃ i, ks.get? i = some k ∧ occursCI k (strOf text) ∧
          ∀ j k', j < i → ks.get? j = some k' → ¬ occursCI k' (strOf text)) ∧
    (findKeyword ks ((strOf text).map pyLowerChar) = none ↔
        ∀ k ∈ ks, ¬ occursCI k (strOf text)) := by
  induction ks with
  | nil => simp [findKeyword]
  | cons k ks ih =>
    have hk := hks k (List.mem_cons_self _ _)
    have ih' := ih (fun k' h' => hks k' (List.mem_cons_of_mem _ h'))
    by_cases h : substringIn k ((strOf text).map pyLowerChar) = true
    · have hocc : occursCI k (strOf text) := (substringIn_lower_iff k hk _).mp h
      constructor
      · intro k₀ hk₀
        simp only [findKeyword, if_pos h, Option.some_inj] at hk₀
        subst hk₀
        exact ⟨0, rfl, hocc, fun j k' hj _ => absurd hj (Nat.not_lt_zero j)⟩
      · constructor
        · intro hnone
          simp only [findKeyword, if_pos h] at hnone
          exact absurd hnone (Option.some_ne_none k)
        · intro hall
          exact absurd hocc (hall k (List.mem_cons_self _ _))
    · have hnocc : ¬ occursCI k (strOf text) := by
        rw [← substringIn_lower_iff k hk]
        simpa using h
      have hstep : findKeyword (k :: ks) ((strOf text).map pyLowerChar) =
          findKeyword ks ((strOf text).map pyLowerChar) := by
        simp only [findKeyword, if_neg h]
      constructor
      · intro k₀ hk₀
        rw [hstep] at hk₀
        obtain ⟨i, hgi, hocc, hfirst⟩ := ih'.1 k₀ hk₀
        refine ⟨i + 1, by simpa using hgi, hocc, ?_⟩
        intro j k' hj hgj
        cases j with
        | zero =>
          simp only [List.get?] at hgj
          injection hgj with hgj
          subst hgj
          exact hnocc
        | succ j' =>
          exact hfirst j' k' (by omega) (by simpa using hgj)
      · rw [hstep, ih'.2]
        constructor
        · intro hall k₀ hk₀
          rcases List.mem_cons.mp hk₀ with rfl | hmem
          · exact hnocc
          · exact hall k₀ hmem
        · intro hall k₀ hk₀
          exact hall k₀ (List.mem_cons_of_mem _ hk₀)

/-- C4: `contains_sensitive_keyword` returns the first element of the
configured keyword list (in list order) occurring as a case-insensitive
substring of the text, returns none exactly when no keyword occurs, and
returns none for empty or absent text; it is a total function. -/
theorem c4_keyword_matcher (text : Option Str) :
    (∀ k, contains_sensitive_keyword text = some k →
        ∃ i, SENSITIVE_KEYWORDS.get? i = some k ∧ occursCI k (strOf text) ∧
          ∀ j k', j < i → SENSITIVE_KEYWORDS.get? j = some k' →
            ¬ occursCI k' (strOf text)) ∧
    (contains_sensitive_keyword text = none ↔
        ∀ k ∈ SENSITIVE_KEYWORDS, ¬ occursCI k (strOf text)) ∧
    (pyTruthy text = false → contains_sensitive_keyword text = none) := by
  have base := findKeyword_spec SENSITIVE_KEYWORDS text (by decide)
  rw [contains_eq text]
  refine ⟨base.1, base.2, ?_⟩
  intro hf
  rw [strOf_falsy text hf]
  rfl

/-- C4 witness: an uppercase occurrence of "avocat" is matched (first in
list order among the occurring keywords), and absent text yields none. -/
theorem c4_witness :
    (∃ i, SENSITIVE_KEYWORDS.get? i = some "avocat".data ∧
        occursCI "avocat".data (strOf (some "Mon AVOCAT est là".data)) ∧
        ∀ j k', j < i → SENSITIVE_KEYWORDS.get? j = some k' →
          ¬ occursCI k' (strOf (some "Mon AVOCAT est là".data))) ∧
    contains_sensitive_keyword none = none :=
  ⟨(c4_keyword_matcher (some "Mon AVOCAT est là".data)).1 "avocat".data (by decide),
   (c4_keyword_matcher none).2.2 rfl⟩

end Bot
